import Mathlib

/-!
# ArenaForge battle core — shallow embedding and verification

This file embeds the battle-simulation core of the ArenaForge repository in
Lean 4 and proves (or refutes) the frozen claims about it.

Embedded modules:
* `Simulator` — `frontend/battle/src/engine/Simulator.js` (fixed-timestep loop)
* `Ragdoll`   — `Ragdoll.js` (articulated body construction)
* `AIBrain`   — `frontend/battle/src/ai/AIBrain.js` (latest revision in the
  file, the one defining `dampHorizontalVelocity` / `clampHorizontalVelocity`)
* `ImpactTracker` — `frontend/battle/src/engine/ImpactTracker.js`
* damage formulas — modelled from the specification (§4.5), since the
  damage/knockback resolution pipeline is not implemented in the sources

Numbers are modelled with `ℚ` (JavaScript numbers, treated exactly).  Where
the source computes a Euclidean norm with `Math.sqrt` (the pelvis-to-pelvis
`distance` in `processAITick`, the relative contact speed in
`calculateImpact`), the embedding takes the computed scalar as an input to
the function, since the downstream logic and every claim are stated in
terms of that scalar; the coordinate-level subtraction that feeds it is kept
where it matters (`dx` decides the approach direction).

The file is organised as definitions first, then the theorems.
-/

namespace Simulator

/-- `SIM_CONFIG.fixedDelta = 1000 / 60` (ms per physics tick). -/
def fixedDelta : ℚ := 1000 / 60

/-- `SIM_CONFIG.maxSubSteps = 5` (catch-up cap, "prevent spiral of death"). -/
def maxSubSteps : ℕ := 5

/-- The module state of `Simulator.js`, over an abstract physics-engine
state `σ` (the Matter.js engine is external; `engine = null` is `none`).
Each call `Engine.update(engine, dt)` is recorded in `trace` by the `dt` it
was invoked with, so "number and size of integrator calls" is observable.
The fps bookkeeping (`frameCount`, `fps`, `fpsLastTime`) and `lastTime` are
presentation-only and omitted; the per-frame `deltaTime` they would produce
is instead an input of `loopFrame`. -/
structure SimState (σ : Type) where
  engine : Option σ
  isRunning : Bool
  isPaused : Bool
  accumulator : ℚ
  tickCount : ℕ
  trace : List ℚ
deriving DecidableEq

variable {σ : Type}

/-- The capping of `deltaTime` in `loop`:
`if (deltaTime > fixedDelta * maxSubSteps) deltaTime = fixedDelta * maxSubSteps`. -/
def capDelta (deltaTime : ℚ) : ℚ :=
  if deltaTime > fixedDelta * maxSubSteps then fixedDelta * maxSubSteps else deltaTime

/-- The inner `while (accumulator >= fixedDelta)` loop of `loop`:
step the engine with `fixedDelta`, drain the accumulator, count the tick. -/
def drain (stepPhys : σ → σ) (s : SimState σ) : SimState σ :=
  if h : fixedDelta ≤ s.accumulator then
    drain stepPhys
      { s with
        engine := s.engine.map stepPhys
        trace := s.trace ++ [fixedDelta]
        accumulator := s.accumulator - fixedDelta
        tickCount := s.tickCount + 1 }
  else s
termination_by ⌊s.accumulator / fixedDelta⌋₊
decreasing_by
  have hfd : (0 : ℚ) < fixedDelta := by norm_num [fixedDelta]
  have h1 : (1 : ℚ) ≤ s.accumulator / fixedDelta := (one_le_div hfd).mpr h
  have hsub : (s.accumulator - fixedDelta) / fixedDelta = s.accumulator / fixedDelta - 1 := by
    rw [sub_div, div_self (ne_of_gt hfd)]
  rw [hsub, Nat.floor_sub_one]
  have hpos : 0 < ⌊s.accumulator / fixedDelta⌋₊ := Nat.floor_pos.mpr h1
  omega

/-- One invocation of `loop` in `Simulator.js`, parameterised by the
wall-clock `deltaTime` it measures (in the source, derived from
`currentTime - lastTime`).  Render callbacks do not touch simulation
state and are omitted. -/
def loopFrame (stepPhys : σ → σ) (deltaTime : ℚ) (s : SimState σ) : SimState σ :=
  if s.isRunning = false then s
  else
    let dt := capDelta deltaTime
    if s.isPaused then s
    else drain stepPhys { s with accumulator := s.accumulator + dt }

/-- A sequence of frames, each with its measured wall-clock delta. -/
def runFrames (stepPhys : σ → σ) (deltas : List ℚ) (s : SimState σ) : SimState σ :=
  deltas.foldl (fun st d => loopFrame stepPhys d st) s

/-- `pause()`: no-op unless running; freezes physics integration only. -/
def pause (s : SimState σ) : SimState σ :=
  if s.isRunning = false then s else { s with isPaused := true }

/-- `step()`: guard on a null engine, force `pause()` when not paused,
then a single `Engine.update(engine, fixedDelta)` and `tickCount++`. -/
def step (stepPhys : σ → σ) (s : SimState σ) : SimState σ :=
  if s.engine.isNone then s
  else
    let s1 := if s.isPaused = false then pause s else s
    { s1 with
      engine := s1.engine.map stepPhys
      trace := s1.trace ++ [fixedDelta]
      tickCount := s1.tickCount + 1 }

end Simulator

namespace Ragdoll

/-- Shape of a segment: `Bodies.circle` or `Bodies.rectangle`. -/
inductive Shape where
  | circle (radius : ℚ)
  | rectangle (width height : ℚ)
deriving DecidableEq

/-- One rigid segment as created by `Bodies.circle` / `Bodies.rectangle`
with the options produced by `bodyOptions(label)` in `createRagdoll`.
Velocity and force start at zero for a newly created Matter body; the AI
tick mutates them. -/
structure Segment where
  label : String
  shape : Shape
  x : ℚ
  y : ℚ
  vx : ℚ := 0
  vy : ℚ := 0
  fx : ℚ := 0
  fy : ℚ := 0
  friction : ℚ
  frictionStatic : ℚ
  frictionAir : ℚ
  restitution : ℚ
  density : ℚ
  group : ℤ
deriving DecidableEq

/-- A point constraint created by the `connect` helper
(`Constraint.create` with `bodyA/bodyB/pointA/pointB` and the shared
`stiffness`/`damping`).  Bodies are referred to by their unique labels. -/
structure Joint where
  bodyA : String
  bodyB : String
  pointAx : ℚ
  pointAy : ℚ
  pointBx : ℚ
  pointBy : ℚ
  stiffness : ℚ
  damping : ℚ
deriving DecidableEq

/-- A circle size entry of `RAGDOLL_CONFIG` (`head`). -/
structure CircleSize where
  radius : ℚ
deriving DecidableEq

/-- A box size entry of `RAGDOLL_CONFIG`. -/
structure BoxSize where
  width : ℚ
  height : ℚ
deriving DecidableEq

/-- `RAGDOLL_CONFIG.constraints`. -/
structure ConstraintSettings where
  stiffness : ℚ
  damping : ℚ
  angularStiffness : ℚ
deriving DecidableEq

/-- `RAGDOLL_CONFIG.physics`. -/
structure PhysicsSettings where
  friction : ℚ
  frictionStatic : ℚ
  frictionAir : ℚ
  restitution : ℚ
  density : ℚ
deriving DecidableEq

/-- The full `RAGDOLL_CONFIG` shape (also the type of the merged
`config = { ...RAGDOLL_CONFIG, ...options }`). -/
structure RagdollConfig where
  scale : ℚ
  head : CircleSize
  torso : BoxSize
  pelvis : BoxSize
  upperArm : BoxSize
  lowerArm : BoxSize
  hand : BoxSize
  upperLeg : BoxSize
  lowerLeg : BoxSize
  foot : BoxSize
  constraints : ConstraintSettings
  physics : PhysicsSettings
  collisionGroup : ℤ
deriving DecidableEq

/-- `RAGDOLL_CONFIG` default tuning constants. -/
def RAGDOLL_CONFIG : RagdollConfig :=
  { scale := 1
    head := { radius := 18 }
    torso := { width := 28, height := 50 }
    pelvis := { width := 24, height := 20 }
    upperArm := { width := 10, height := 32 }
    lowerArm := { width := 8, height := 28 }
    hand := { width := 8, height := 8 }
    upperLeg := { width := 12, height := 38 }
    lowerLeg := { width := 10, height := 34 }
    foot := { width := 16, height := 8 }
    constraints := { stiffness := 9/10, damping := 3/10, angularStiffness := 1/10 }
    physics :=
      { friction := 8/10
        frictionStatic := 9/10
        frictionAir := 2/100
        restitution := 1/10
        density := 1/1000 }
    collisionGroup := -1 }

/-- The named `bodies` record assembled by `createRagdoll`. -/
structure RagdollBodies where
  head : Segment
  torso : Segment
  pelvis : Segment
  leftUpperArm : Segment
  leftLowerArm : Segment
  leftHand : Segment
  rightUpperArm : Segment
  rightLowerArm : Segment
  rightHand : Segment
  leftUpperLeg : Segment
  leftLowerLeg : Segment
  leftFoot : Segment
  rightUpperLeg : Segment
  rightLowerLeg : Segment
  rightFoot : Segment
deriving DecidableEq

/-- The value returned by `createRagdoll` (`composite` only aggregates
`bodies` and `constraints` and is represented by them). -/
structure RagdollValue where
  bodies : RagdollBodies
  constraints : List Joint
  config : RagdollConfig
deriving DecidableEq

/-- `Object.values(bodies)`, in the key order of the source record. -/
def RagdollValue.segments (r : RagdollValue) : List Segment :=
  [r.bodies.head, r.bodies.torso, r.bodies.pelvis,
   r.bodies.leftUpperArm, r.bodies.leftLowerArm, r.bodies.leftHand,
   r.bodies.rightUpperArm, r.bodies.rightLowerArm, r.bodies.rightHand,
   r.bodies.leftUpperLeg, r.bodies.leftLowerLeg, r.bodies.leftFoot,
   r.bodies.rightUpperLeg, r.bodies.rightLowerLeg, r.bodies.rightFoot]

/-- `createRagdoll(x, y, options)` with the merged config passed directly.
A literal translation of the body and constraint construction; it performs
no validation of any kind and always returns the assembled structure. -/
def createRagdoll (x y : ℚ) (config : RagdollConfig) : RagdollValue :=
  let s := config.scale
  let bodyOptions : String → Shape → ℚ → ℚ → Segment := fun label shape bx b_y =>
    { label := label
      shape := shape
      x := bx
      y := b_y
      friction := config.physics.friction
      frictionStatic := config.physics.frictionStatic
      frictionAir := config.physics.frictionAir
      restitution := config.physics.restitution
      density := config.physics.density
      group := config.collisionGroup }
  let torsoY := y
  let headY := torsoY - config.torso.height * s / 2 - config.head.radius * s - 4 * s
  let pelvisY := torsoY + config.torso.height * s / 2 + config.pelvis.height * s / 2
  let shoulderY := torsoY - config.torso.height * s / 2 + 8 * s
  let shoulderOffsetX := config.torso.width * s / 2 + 2 * s
  let hipY := pelvisY + config.pelvis.height * s / 2
  let hipOffsetX := config.pelvis.width * s / 4
  let head := bodyOptions "head" (Shape.circle (config.head.radius * s)) x headY
  let torso := bodyOptions "torso"
    (Shape.rectangle (config.torso.width * s) (config.torso.height * s)) x torsoY
  let pelvis := bodyOptions "pelvis"
    (Shape.rectangle (config.pelvis.width * s) (config.pelvis.height * s)) x pelvisY
  let leftUpperArm := bodyOptions "leftUpperArm"
    (Shape.rectangle (config.upperArm.height * s) (config.upperArm.width * s))
    (x - shoulderOffsetX - config.upperArm.height * s / 2) shoulderY
  let leftLowerArm := bodyOptions "leftLowerArm"
    (Shape.rectangle (config.lowerArm.height * s) (config.lowerArm.width * s))
    (x - shoulderOffsetX - config.upperArm.height * s - config.lowerArm.height * s / 2) shoulderY
  let leftHand := bodyOptions "leftHand"
    (Shape.rectangle (config.hand.width * s) (config.hand.height * s))
    (x - shoulderOffsetX - config.upperArm.height * s - config.lowerArm.height * s
      - config.hand.width * s / 2) shoulderY
  let rightUpperArm := bodyOptions "rightUpperArm"
    (Shape.rectangle (config.upperArm.height * s) (config.upperArm.width * s))
    (x + shoulderOffsetX + config.upperArm.height * s / 2) shoulderY
  let rightLowerArm := bodyOptions "rightLowerArm"
    (Shape.rectangle (config.lowerArm.height * s) (config.lowerArm.width * s))
    (x + shoulderOffsetX + config.upperArm.height * s + config.lowerArm.height * s / 2) shoulderY
  let rightHand := bodyOptions "rightHand"
    (Shape.rectangle (config.hand.width * s) (config.hand.height * s))
    (x + shoulderOffsetX + config.upperArm.height * s + config.lowerArm.height * s
      + config.hand.width * s / 2) shoulderY
  let leftUpperLeg := bodyOptions "leftUpperLeg"
    (Shape.rectangle (config.upperLeg.width * s) (config.upperLeg.height * s))
    (x - hipOffsetX) (hipY + config.upperLeg.height * s / 2)
  let leftLowerLeg := bodyOptions "leftLowerLeg"
    (Shape.rectangle (config.lowerLeg.width * s) (config.lowerLeg.height * s))
    (x - hipOffsetX) (hipY + config.upperLeg.height * s + config.lowerLeg.height * s / 2)
  let leftFoot := bodyOptions "leftFoot"
    (Shape.rectangle (config.foot.width * s) (config.foot.height * s))
    (x - hipOffsetX + 4 * s)
    (hipY + config.upperLeg.height * s + config.lowerLeg.height * s + config.foot.height * s / 2)
  let rightUpperLeg := bodyOptions "rightUpperLeg"
    (Shape.rectangle (config.upperLeg.width * s) (config.upperLeg.height * s))
    (x + hipOffsetX) (hipY + config.upperLeg.height * s / 2)
  let rightLowerLeg := bodyOptions "rightLowerLeg"
    (Shape.rectangle (config.lowerLeg.width * s) (config.lowerLeg.height * s))
    (x + hipOffsetX) (hipY + config.upperLeg.height * s + config.lowerLeg.height * s / 2)
  let rightFoot := bodyOptions "rightFoot"
    (Shape.rectangle (config.foot.width * s) (config.foot.height * s))
    (x + hipOffsetX + 4 * s)
    (hipY + config.upperLeg.height * s + config.lowerLeg.height * s + config.foot.height * s / 2)
  let connect : String → String → (ℚ × ℚ) → (ℚ × ℚ) → Joint := fun a b pA pB =>
    { bodyA := a
      bodyB := b
      pointAx := pA.1
      pointAy := pA.2
      pointBx := pB.1
      pointBy := pB.2
      stiffness := config.constraints.stiffness
      damping := config.constraints.damping }
  let constraints : List Joint :=
    [ -- Neck (head to torso)
      connect "head" "torso" (0, config.head.radius * s) (0, -(config.torso.height * s) / 2),
      -- Spine (torso to pelvis)
      connect "torso" "pelvis" (0, config.torso.height * s / 2) (0, -(config.pelvis.height * s) / 2),
      -- Left shoulder
      connect "torso" "leftUpperArm"
        (-(config.torso.width * s) / 2, -(config.torso.height * s) / 2 + 8 * s)
        (config.upperArm.height * s / 2, 0),
      -- Left elbow
      connect "leftUpperArm" "leftLowerArm"
        (-(config.upperArm.height * s) / 2, 0) (config.lowerArm.height * s / 2, 0),
      -- Left wrist
      connect "leftLowerArm" "leftHand"
        (-(config.lowerArm.height * s) / 2, 0) (config.hand.width * s / 2, 0),
      -- Right shoulder
      connect "torso" "rightUpperArm"
        (config.torso.width * s / 2, -(config.torso.height * s) / 2 + 8 * s)
        (-(config.upperArm.height * s) / 2, 0),
      -- Right elbow
      connect "rightUpperArm" "rightLowerArm"
        (config.upperArm.height * s / 2, 0) (-(config.lowerArm.height * s) / 2, 0),
      -- Right wrist
      connect "rightLowerArm" "rightHand"
        (config.lowerArm.height * s / 2, 0) (-(config.hand.width * s) / 2, 0),
      -- Left hip
      connect "pelvis" "leftUpperLeg"
        (-(config.pelvis.width * s) / 4, config.pelvis.height * s / 2)
        (0, -(config.upperLeg.height * s) / 2),
      -- Left knee
      connect "leftUpperLeg" "leftLowerLeg"
        (0, config.upperLeg.height * s / 2) (0, -(config.lowerLeg.height * s) / 2),
      -- Left ankle
      connect "leftLowerLeg" "leftFoot"
        (0, config.lowerLeg.height * s / 2) (-4 * s, -(config.foot.height * s) / 2),
      -- Right hip
      connect "pelvis" "rightUpperLeg"
        (config.pelvis.width * s / 4, config.pelvis.height * s / 2)
        (0, -(config.upperLeg.height * s) / 2),
      -- Right knee
      connect "rightUpperLeg" "rightLowerLeg"
        (0, config.upperLeg.height * s / 2) (0, -(config.lowerLeg.height * s) / 2),
      -- Right ankle
      connect "rightLowerLeg" "rightFoot"
        (0, config.lowerLeg.height * s / 2) (-4 * s, -(config.foot.height * s) / 2) ]
  { bodies :=
      { head := head
        torso := torso
        pelvis := pelvis
        leftUpperArm := leftUpperArm
        leftLowerArm := leftLowerArm
        leftHand := leftHand
        rightUpperArm := rightUpperArm
        rightLowerArm := rightLowerArm
        rightHand := rightHand
        leftUpperLeg := leftUpperLeg
        leftLowerLeg := leftLowerLeg
        leftFoot := leftFoot
        rightUpperLeg := rightUpperLeg
        rightLowerLeg := rightLowerLeg
        rightFoot := rightFoot }
    constraints := constraints
    config := config }

/-- Collision eligibility of two collision-filter groups under the physics
engine's rules (Matter.js `Detector.canCollide`), for bodies that keep the
default `category = 1` and `mask = all bits` — which all ragdoll segments
do, since `bodyOptions` only sets `collisionFilter.group`.  Two bodies in
the same nonzero group collide iff the group is positive; otherwise the
default category/mask test passes. -/
def canCollide (groupA groupB : ℤ) : Bool :=
  if groupA = groupB ∧ groupA ≠ 0 then decide (0 < groupA) else true

/-- The fighter-A ragdoll as spawned by `spawnFighters` in `index.js`:
spawn `(arena.width * 0.3, arena.height / 2 - 50) = (270, 250)` with
`ragdollConfig: { collisionGroup: -1 }` merged over `RAGDOLL_CONFIG`. -/
def fighterARagdoll : RagdollValue :=
  createRagdoll 270 250 { RAGDOLL_CONFIG with collisionGroup := -1 }

/-- The fighter-B ragdoll as spawned by `spawnFighters` in `index.js`:
spawn `(arena.width * 0.7, arena.height / 2 - 50) = (630, 250)` with
`ragdollConfig: { collisionGroup: -2 }` merged over `RAGDOLL_CONFIG`. -/
def fighterBRagdoll : RagdollValue :=
  createRagdoll 630 250 { RAGDOLL_CONFIG with collisionGroup := -2 }

/-- An invalid configuration in the sense of the spec's §7: non-positive
density (the mass source of every segment) and non-positive joint
stiffness, as it would arrive through `createRagdoll`'s options merge. -/
def invalidRagdollConfig : RagdollConfig :=
  { RAGDOLL_CONFIG with
    physics := { RAGDOLL_CONFIG.physics with density := -(1/1000) }
    constraints := { RAGDOLL_CONFIG.constraints with stiffness := 0 } }

end Ragdoll

namespace AIBrain

open Ragdoll

/-- `AI_CONFIG` of the embedded `AIBrain.js` revision. -/
structure AIConfig where
  tickInterval : ℚ
  approachDistance : ℚ
  idleDistance : ℚ
  moveForce : ℚ
  maxVx : ℚ
  idleDamping : ℚ
  disabledDamping : ℚ
deriving DecidableEq

/-- `AI_CONFIG` constants. -/
def AI_CONFIG : AIConfig :=
  { tickInterval := 30
    approachDistance := 150
    idleDistance := 80
    moveForce := 12/1000
    maxVx := 4
    idleDamping := 75/100
    disabledDamping := 80/100 }

/-- `AI_CONFIG.states`. -/
inductive AIState where
  | IDLE
  | APPROACH
deriving DecidableEq

/-- A fighter as consumed by the AI: the entity wrapper of `Fighter.js`
(`id`, `name`, the ragdoll). -/
structure Fighter where
  id : String
  name : String
  ragdoll : RagdollValue
deriving DecidableEq

/-- One AI controller as created by `createAI`.  The fighter references
are optional because `processAITick` defensively checks
`fighter?.ragdoll?.bodies?.pelvis` before acting. -/
structure AIInstance where
  fighter : Option Fighter
  target : Option Fighter
  state : AIState
  enabled : Bool
  lastDistance : ℚ
deriving DecidableEq

/-- `createAI(fighter, target)`: builds the controller unconditionally —
initial state `IDLE`, enabled, `lastDistance = 0`.  (No configuration is
validated; the distance thresholds are module constants.) -/
def createAI (fighter target : Fighter) : AIInstance :=
  { fighter := some fighter
    target := some target
    state := AIState.IDLE
    enabled := true
    lastDistance := 0 }

/-- `Math.sign`, as used by `clampHorizontalVelocity`. -/
def jsSign (q : ℚ) : ℚ :=
  if 0 < q then 1 else if q < 0 then -1 else 0

/-- `dampHorizontalVelocity(body, factor)`:
`Body.setVelocity(body, { x: vx * factor, y: vy })`. -/
def dampHorizontalVelocity (body : Segment) (factor : ℚ) : Segment :=
  { body with vx := body.vx * factor }

/-- `clampHorizontalVelocity(body, maxVx)`: clamp only the horizontal
velocity to magnitude `maxVx`, leaving `vy` untouched. -/
def clampHorizontalVelocity (body : Segment) (maxVx : ℚ) : Segment :=
  if |body.vx| > maxVx then { body with vx := jsSign body.vx * maxVx } else body

/-- `Body.applyForce(body, position, force)` applied at the body's own
position, as both call sites do: the force accumulates, no torque arises. -/
def applyForce (body : Segment) (forceX forceY : ℚ) : Segment :=
  { body with fx := body.fx + forceX, fy := body.fy + forceY }

/-- The state decision of `processAITick` (hysteresis band):
`APPROACH` above `approachDistance`, `IDLE` below `idleDistance`,
otherwise keep the current state. -/
def aiNextState (distance : ℚ) (state : AIState) : AIState :=
  if distance > AI_CONFIG.approachDistance then AIState.APPROACH
  else if distance < AI_CONFIG.idleDistance then AIState.IDLE
  else state

/-- `processAITick(ai, index)` of the embedded revision.  `dx` is the
horizontal pelvis offset `targetPos.x - myPos.x` and `distance` the
Euclidean pelvis-to-pelvis distance `Math.sqrt(dx*dx + dy*dy)` computed
from it (taken as inputs, see the file header).  The `debugState`
bookkeeping (the only use of `index`) is presentation-only and omitted. -/
def processAITick (ai : AIInstance) (dx distance : ℚ) : AIInstance :=
  match ai.fighter, ai.target with
  | some fighter, some _target =>
    let pelvis := fighter.ragdoll.bodies.pelvis
    let torso := fighter.ragdoll.bodies.torso
    if ai.enabled = false then
      -- If AI is disabled, apply damping and return
      let bodies1 :=
        { fighter.ragdoll.bodies with
          pelvis := dampHorizontalVelocity pelvis AI_CONFIG.disabledDamping
          torso := dampHorizontalVelocity torso AI_CONFIG.disabledDamping }
      { ai with fighter := some { fighter with ragdoll := { fighter.ragdoll with bodies := bodies1 } } }
    else
      -- Determine state with hysteresis
      let state1 := aiNextState distance ai.state
      -- Apply movement force if approaching, braking if IDLE
      let bodies1 :=
        match state1 with
        | AIState.APPROACH =>
          let direction : ℚ := if dx > 0 then 1 else -1
          let force := AI_CONFIG.moveForce * direction
          { fighter.ragdoll.bodies with
            pelvis := applyForce pelvis force 0
            torso := applyForce torso (force * (5/10)) 0 }
        | AIState.IDLE =>
          { fighter.ragdoll.bodies with
            pelvis := dampHorizontalVelocity pelvis AI_CONFIG.idleDamping
            torso := dampHorizontalVelocity torso AI_CONFIG.idleDamping }
      -- Clamp horizontal velocity
      let bodies2 :=
        { bodies1 with
          pelvis := clampHorizontalVelocity bodies1.pelvis AI_CONFIG.maxVx
          torso := clampHorizontalVelocity bodies1.torso AI_CONFIG.maxVx }
      { ai with
        state := state1
        lastDistance := distance
        fighter := some { fighter with ragdoll := { fighter.ragdoll with bodies := bodies2 } } }
  | _, _ => ai

end AIBrain

namespace ImpactTracker

/-- `bodyA.mass || 1`: a falsy (zero) mass defaults to 1. -/
def massOrOne (mass : ℚ) : ℚ :=
  if mass = 0 then 1 else mass

/-- `calculateImpact(pair)`: relative contact speed × combined mass × 10.
`relSpeed` is `Math.sqrt(relVelX² + relVelY²)` of the two body velocities,
taken as an input (see the file header); the masses are the two bodies'
`mass` fields with the `|| 1` default. -/
def calculateImpact (relSpeed massA massB : ℚ) : ℚ :=
  let combinedMass := massOrOne massA + massOrOne massB
  relSpeed * combinedMass * 10

/-- `IMPACT_CONFIG.minImpact`. -/
def minImpact : ℚ := 50

end ImpactTracker

namespace Damage

/-- Modelled from the spec: the impact score that seeds the damage formula
(§4.5).  The damage/knockback resolution pipeline is specified (spec §4.5
and the balance documentation) but not implemented in the sources — the
in-repo impact module only drives visual feedback — so this definition
follows the spec's formula
`impactScoreForDamage = collisionImpulse × weaponDamageScale × strengthMultiplier`. -/
def impactScoreForDamage (collisionImpulse weaponDamageScale strengthMultiplier : ℚ) : ℚ :=
  collisionImpulse * weaponDamageScale * strengthMultiplier

/-- Modelled from the spec: `damage = impactScoreForDamage − armorDefense`
floored at zero (§4.5); the resolution pipeline is absent from the
sources. -/
def damage (collisionImpulse weaponDamageScale strengthMultiplier armorDefense : ℚ) : ℚ :=
  max (impactScoreForDamage collisionImpulse weaponDamageScale strengthMultiplier
    - armorDefense) 0

/-- Modelled from the spec:
`knockback = collisionImpulse × knockbackScale × (1 − armorKnockbackReduction)`
(§4.5); the resolution pipeline is absent from the sources. -/
def knockback (collisionImpulse knockbackScale armorKnockbackReduction : ℚ) : ℚ :=
  collisionImpulse * knockbackScale * (1 - armorKnockbackReduction)

end Damage

/-! ## Theorems -/

namespace Simulator

theorem fixedDelta_pos : 0 < fixedDelta := by norm_num [fixedDelta]

theorem capDelta_nonneg {d : ℚ} (hd : 0 ≤ d) : 0 ≤ capDelta d := by
  unfold capDelta
  split
  · norm_num [fixedDelta, maxSubSteps]
  · exact hd

/-- Closed form of the drain loop: with a non-negative accumulator it
executes exactly `⌊accumulator / fixedDelta⌋₊` ticks, each a single
`Engine.update` with `fixedDelta`, and leaves the remainder. -/
theorem drain_spec (stepPhys : σ → σ) :
    ∀ (n : ℕ) (s : SimState σ), 0 ≤ s.accumulator →
      ⌊s.accumulator / fixedDelta⌋₊ = n →
      drain stepPhys s =
        { engine := (Option.map stepPhys)^[n] s.engine
          isRunning := s.isRunning
          isPaused := s.isPaused
          accumulator := s.accumulator - n * fixedDelta
          tickCount := s.tickCount + n
          trace := s.trace ++ List.replicate n fixedDelta } := by
  intro n
  induction n with
  | zero =>
    intro s hacc hfloor
    have hlt : s.accumulator / fixedDelta < 1 := Nat.floor_eq_zero.mp hfloor
    have hlt' : s.accumulator < fixedDelta := (div_lt_one fixedDelta_pos).mp hlt
    rw [drain, dif_neg (not_le.mpr hlt')]
    simp
  | succ n ih =>
    intro s hacc hfloor
    have hge : fixedDelta ≤ s.accumulator := by
      by_contra hcon
      rw [Nat.floor_eq_zero.mpr ((div_lt_one fixedDelta_pos).mpr (not_le.mp hcon))] at hfloor
      exact Nat.succ_ne_zero n hfloor.symm
    rw [drain, dif_pos hge]
    have hacc' : (0 : ℚ) ≤ s.accumulator - fixedDelta := sub_nonneg.mpr hge
    have hfloor' : ⌊(s.accumulator - fixedDelta) / fixedDelta⌋₊ = n := by
      rw [sub_div, div_self (ne_of_gt fixedDelta_pos), Nat.floor_sub_one, hfloor]
      omega
    rw [ih _ hacc' hfloor']
    simp only [SimState.mk.injEq, Function.iterate_succ_apply, List.append_assoc,
      List.singleton_append, ← List.replicate_succ]
    repeat' apply And.intro
    all_goals first
      | trivial
      | (push_cast; ring)

/-- Closed form of one running, unpaused frame: starting from any
non-negative accumulator, a frame with wall-clock delta `d ≥ 0` executes
`⌊(acc + capDelta d) / fixedDelta⌋₊` ticks and leaves the remainder. -/
theorem loopFrame_spec (stepPhys : σ → σ) (d : ℚ) (s : SimState σ)
    (hd : 0 ≤ d)
    (hrun : s.isRunning = true) (hpause : s.isPaused = false)
    (hacc : 0 ≤ s.accumulator) :
    loopFrame stepPhys d s =
      { engine := (Option.map stepPhys)^[⌊(s.accumulator + capDelta d) / fixedDelta⌋₊] s.engine
        isRunning := s.isRunning
        isPaused := s.isPaused
        accumulator := s.accumulator + capDelta d -
          ⌊(s.accumulator + capDelta d) / fixedDelta⌋₊ * fixedDelta
        tickCount := s.tickCount + ⌊(s.accumulator + capDelta d) / fixedDelta⌋₊
        trace := s.trace ++ List.replicate ⌊(s.accumulator + capDelta d) / fixedDelta⌋₊ fixedDelta } := by
  unfold loopFrame
  rw [hrun]
  simp only [Bool.true_eq_false, if_false, hpause, if_false]
  exact drain_spec stepPhys _ _ (add_nonneg hacc (capDelta_nonneg hd)) rfl

/-- Closed form of a whole run: over any frame deltas (each non-negative,
capped per frame by `capDelta`), a running unpaused simulator that starts
with a drained accumulator executes exactly
`⌊(accumulator + Σ capped deltas) / fixedDelta⌋₊` physics ticks, in order,
each with `fixedDelta`; the remainder stays in the accumulator. -/
theorem runFrames_spec (stepPhys : σ → σ) :
    ∀ (deltas : List ℚ) (s : SimState σ), (∀ d ∈ deltas, 0 ≤ d) →
      s.isRunning = true → s.isPaused = false →
      0 ≤ s.accumulator → s.accumulator < fixedDelta →
      runFrames stepPhys deltas s =
        { engine := (Option.map stepPhys)^[⌊(s.accumulator + ((deltas.map capDelta).sum)) / fixedDelta⌋₊] s.engine
          isRunning := s.isRunning
          isPaused := s.isPaused
          accumulator := s.accumulator + ((deltas.map capDelta).sum) -
            ⌊(s.accumulator + ((deltas.map capDelta).sum)) / fixedDelta⌋₊ * fixedDelta
          tickCount := s.tickCount + ⌊(s.accumulator + ((deltas.map capDelta).sum)) / fixedDelta⌋₊
          trace := s.trace ++
            List.replicate ⌊(s.accumulator + ((deltas.map capDelta).sum)) / fixedDelta⌋₊ fixedDelta } := by
  intro deltas
  induction deltas with
  | nil =>
    intro s _ hrun hpause hacc hlt
    have hfloor : ⌊s.accumulator / fixedDelta⌋₊ = 0 :=
      Nat.floor_eq_zero.mpr ((div_lt_one fixedDelta_pos).mpr hlt)
    simp [runFrames, hfloor]
  | cons d rest ih =>
    intro s hall hrun hpause hacc hlt
    have hd : 0 ≤ d := hall d (List.mem_cons_self d rest)
    have hrest : ∀ x ∈ rest, 0 ≤ x := fun x hx => hall x (List.mem_cons_of_mem d hx)
    have hstep : runFrames stepPhys (d :: rest) s =
        runFrames stepPhys rest (loopFrame stepPhys d s) := rfl
    rw [hstep, loopFrame_spec stepPhys d s hd hrun hpause hacc]
    set S1 : ℚ := s.accumulator + capDelta d with hS1
    have hS1nn : 0 ≤ S1 := add_nonneg hacc (capDelta_nonneg hd)
    set n1 : ℕ := ⌊S1 / fixedDelta⌋₊ with hn1
    have hrem_nn : 0 ≤ S1 - n1 * fixedDelta := by
      have h1 : (n1 : ℚ) ≤ S1 / fixedDelta :=
        Nat.floor_le (div_nonneg hS1nn (le_of_lt fixedDelta_pos))
      have h2 : (n1 : ℚ) * fixedDelta ≤ S1 := by
        calc (n1 : ℚ) * fixedDelta ≤ S1 / fixedDelta * fixedDelta := by
              exact mul_le_mul_of_nonneg_right h1 (le_of_lt fixedDelta_pos)
          _ = S1 := div_mul_cancel₀ S1 (ne_of_gt fixedDelta_pos)
      linarith
    have hrem_lt : S1 - n1 * fixedDelta < fixedDelta := by
      have h1 : S1 / fixedDelta < n1 + 1 := Nat.lt_floor_add_one _
      have h2 : S1 < (n1 + 1 : ℚ) * fixedDelta := by
        have := mul_lt_mul_of_pos_right h1 fixedDelta_pos
        rwa [div_mul_cancel₀ S1 (ne_of_gt fixedDelta_pos)] at this
      push_cast at h2
      linarith
    rw [ih _ hrest (by exact hrun) (by exact hpause) hrem_nn hrem_lt]
    have hsum : S1 - n1 * fixedDelta + ((rest.map capDelta).sum) =
        s.accumulator + (((d :: rest).map capDelta).sum) - n1 * fixedDelta := by
      simp only [List.map_cons, List.sum_cons, hS1]
      ring
    have hfloor_split :
        ⌊(S1 - n1 * fixedDelta + ((rest.map capDelta).sum)) / fixedDelta⌋₊ + n1 =
        ⌊(s.accumulator + (((d :: rest).map capDelta).sum)) / fixedDelta⌋₊ := by
      have hx : 0 ≤ (S1 - n1 * fixedDelta + ((rest.map capDelta).sum)) / fixedDelta := by
        have : 0 ≤ (rest.map capDelta).sum :=
          List.sum_nonneg (by
            intro q hq
            obtain ⟨x, hx, rfl⟩ := List.mem_map.mp hq
            exact capDelta_nonneg (hrest x hx))
        exact div_nonneg (add_nonneg hrem_nn this) (le_of_lt fixedDelta_pos)
      have := Nat.floor_add_nat hx n1
      rw [← this]
      congr 1
      rw [eq_div_iff (ne_of_gt fixedDelta_pos)]
      push_cast
      rw [add_mul, div_mul_cancel₀ _ (ne_of_gt fixedDelta_pos), hsum]
      simp only [List.map_cons, List.sum_cons]
      ring
    simp only [SimState.mk.injEq]
    repeat' apply And.intro
    · rw [← Function.iterate_add_apply, hfloor_split]
    · trivial
    · trivial
    · rw [← hfloor_split]
      push_cast
      push_cast at hsum
      linear_combination hsum
    · rw [← hfloor_split]
      omega
    · rw [← hfloor_split, List.append_assoc, ← List.replicate_add]
      congr 2
      omega

end Simulator

namespace Simulator

/-- **C1.** For every sequence of wall-clock frame deltas processed by the
simulation loop (running, not paused, accumulator drained), each delta
first capped to `fixedDelta × maxSubSteps`, the number of physics ticks
executed (`tickCount`) and the resulting simulated state are the same as
when the same total elapsed (capped) time arrives split differently across
frames: the whole simulator state after the run — engine state, tick count,
trace of integrator calls and remaining accumulator — depends only on the
sum of the capped deltas, with time beyond the per-frame cap discarded. -/
theorem c1_tick_chunking_invariance (stepPhys : σ → σ)
    (ds1 ds2 : List ℚ) (s : SimState σ)
    (h1 : ∀ d ∈ ds1, 0 ≤ d) (h2 : ∀ d ∈ ds2, 0 ≤ d)
    (hsum : (ds1.map capDelta).sum = (ds2.map capDelta).sum)
    (hrun : s.isRunning = true) (hpause : s.isPaused = false)
    (hacc : 0 ≤ s.accumulator) (hlt : s.accumulator < fixedDelta) :
    (runFrames stepPhys ds1 s).tickCount = (runFrames stepPhys ds2 s).tickCount ∧
    (runFrames stepPhys ds1 s).engine = (runFrames stepPhys ds2 s).engine ∧
    runFrames stepPhys ds1 s = runFrames stepPhys ds2 s := by
  have hrw1 := runFrames_spec stepPhys ds1 s h1 hrun hpause hacc hlt
  have hrw2 := runFrames_spec stepPhys ds2 s h2 hrun hpause hacc hlt
  rw [hrw1, hrw2, hsum]
  exact ⟨rfl, rfl, rfl⟩

/-- Witness for C1: 60 ms delivered as one frame versus as frames of
25 ms and 35 ms, from a freshly started simulator (each delta is below
the 250/3 ms cap, so the capped sums agree). -/
theorem c1_tick_chunking_invariance_witness :
    (runFrames Nat.succ [60]
      { engine := some 0, isRunning := true, isPaused := false,
        accumulator := 0, tickCount := 0, trace := [] }).tickCount =
    (runFrames Nat.succ [25, 35]
      { engine := some 0, isRunning := true, isPaused := false,
        accumulator := 0, tickCount := 0, trace := [] }).tickCount ∧
    (runFrames Nat.succ [60]
      { engine := some 0, isRunning := true, isPaused := false,
        accumulator := 0, tickCount := 0, trace := [] }).engine =
    (runFrames Nat.succ [25, 35]
      { engine := some 0, isRunning := true, isPaused := false,
        accumulator := 0, tickCount := 0, trace := [] }).engine ∧
    runFrames Nat.succ [60]
      { engine := some 0, isRunning := true, isPaused := false,
        accumulator := 0, tickCount := 0, trace := [] } =
    runFrames Nat.succ [25, 35]
      { engine := some 0, isRunning := true, isPaused := false,
        accumulator := 0, tickCount := 0, trace := [] } :=
  c1_tick_chunking_invariance Nat.succ [60] [25, 35]
    { engine := some 0, isRunning := true, isPaused := false,
      accumulator := 0, tickCount := 0, trace := [] }
    (by norm_num) (by norm_num) (by norm_num [capDelta, fixedDelta, maxSubSteps])
    (by norm_num) (by norm_num) (by norm_num) (by norm_num [fixedDelta])

/-- **C6.** For every simulator state with a non-null engine (and any
accumulator value and pause/run flags), `step` performs exactly one
integrator call with the fixed tick size — the trace grows by exactly
`[fixedDelta]` — increments the tick counter by exactly one, and leaves
the accumulator unchanged. -/
theorem c6_step_single_tick (stepPhys : σ → σ) (s : SimState σ)
    (heng : s.engine.isSome = true) :
    (step stepPhys s).trace = s.trace ++ [fixedDelta] ∧
    (step stepPhys s).tickCount = s.tickCount + 1 ∧
    (step stepPhys s).accumulator = s.accumulator := by
  have hnone : s.engine.isNone = false := by
    rcases Option.isSome_iff_exists.mp heng with ⟨e, he⟩
    simp [he]
  unfold step pause
  split_ifs <;> simp_all

/-- Witness for C6: a concrete paused state with an engine present. -/
theorem c6_step_single_tick_witness :
    (step Nat.succ
      { engine := some 7, isRunning := true, isPaused := true,
        accumulator := 5, tickCount := 3, trace := [fixedDelta] }).trace =
      [fixedDelta] ++ [fixedDelta] ∧
    (step Nat.succ
      { engine := some 7, isRunning := true, isPaused := true,
        accumulator := 5, tickCount := 3, trace := [fixedDelta] }).tickCount = 3 + 1 ∧
    (step Nat.succ
      { engine := some 7, isRunning := true, isPaused := true,
        accumulator := 5, tickCount := 3, trace := [fixedDelta] }).accumulator = 5 :=
  c6_step_single_tick Nat.succ
    { engine := some 7, isRunning := true, isPaused := true,
      accumulator := 5, tickCount := 3, trace := [fixedDelta] } (by rfl)

/-- **C10, counterexample.** The claim "for every simulator state with a
non-null engine, after calling `step` the simulator is in the paused
state" is false: on the freshly initialised state (engine present, not
running, not paused — the state before `start()` is ever pressed),
`step`'s forced `pause()` is a no-op because `pause` returns early when
`isRunning` is false, so the simulator is still unpaused after the tick. -/
theorem c10_step_pause_counterexample :
    (step (fun u : Unit => u)
      { engine := some (), isRunning := false, isPaused := false,
        accumulator := 0, tickCount := 0, trace := [] }).isPaused = false := by
  rfl

/-- **C10, amended.** For every simulator state with a non-null engine
that is *running*, after calling `step` the simulator is in the paused
state: invoking `step` while running (paused or not) leaves the simulator
paused, so `step` never leaves a running simulation free-running. -/
theorem c10_step_forces_pause (stepPhys : σ → σ) (s : SimState σ)
    (heng : s.engine.isSome = true) (hrun : s.isRunning = true) :
    (step stepPhys s).isPaused = true := by
  have hnone : s.engine.isNone = false := by
    rcases Option.isSome_iff_exists.mp heng with ⟨e, he⟩
    simp [he]
  unfold step pause
  split_ifs <;> simp_all

/-- Witness for C10 (amended): a running, unpaused state with an engine. -/
theorem c10_step_forces_pause_witness :
    (step Nat.succ
      { engine := some 7, isRunning := true, isPaused := false,
        accumulator := 5, tickCount := 3, trace := [] }).isPaused = true :=
  c10_step_forces_pause Nat.succ
    { engine := some 7, isRunning := true, isPaused := false,
      accumulator := 5, tickCount := 3, trace := [] } (by rfl) (by rfl)

end Simulator

namespace AIBrain

open Ragdoll

theorem dampHorizontalVelocity_vy (b : Segment) (c : ℚ) :
    (dampHorizontalVelocity b c).vy = b.vy := rfl

theorem clampHorizontalVelocity_vy (b : Segment) (m : ℚ) :
    (clampHorizontalVelocity b m).vy = b.vy := by
  unfold clampHorizontalVelocity
  split <;> rfl

theorem dampHorizontalVelocity_label (b : Segment) (c : ℚ) :
    (dampHorizontalVelocity b c).label = b.label := rfl

theorem clampHorizontalVelocity_label (b : Segment) (m : ℚ) :
    (clampHorizontalVelocity b m).label = b.label := by
  unfold clampHorizontalVelocity
  split <;> rfl

theorem applyForce_label (b : Segment) (gx gy : ℚ) :
    (applyForce b gx gy).label = b.label := rfl

/-- Damping by a factor `0 ≤ c < 1` followed by the horizontal clamp still
amounts to multiplying the horizontal velocity by some factor in `[0, 1)`:
the clamp can only shrink it further (and only fires on magnitudes that
exceed `maxVx > 0`, hence on a nonzero velocity). -/
theorem clamp_damp_factor (b : Segment) (c : ℚ) (hc0 : 0 ≤ c) (hc1 : c < 1) :
    ∃ f, 0 ≤ f ∧ f < 1 ∧
      (clampHorizontalVelocity (dampHorizontalVelocity b c) AI_CONFIG.maxVx).vx
        = f * b.vx := by
  have hmax : AI_CONFIG.maxVx = 4 := rfl
  unfold clampHorizontalVelocity dampHorizontalVelocity jsSign
  dsimp only
  rw [hmax]
  by_cases h : |b.vx * c| > 4
  · rw [if_pos h]
    dsimp only
    have hne : b.vx * c ≠ 0 := by
      intro h0
      rw [h0] at h
      norm_num at h
    have hcpos : 0 < c := lt_of_le_of_ne hc0 (by
      intro h0
      exact hne (by rw [← h0, mul_zero]))
    rcases lt_trichotomy b.vx 0 with hneg | hzero | hpos
    · -- negative velocity: the clamp yields -4 = (4 / (-vx)) * vx
      have hprod : b.vx * c < 0 := mul_neg_of_neg_of_pos hneg hcpos
      have habs : |b.vx * c| = -(b.vx * c) := abs_of_neg hprod
      rw [habs] at h
      have hgt : 4 < -b.vx := by nlinarith
      have hvxne : b.vx ≠ 0 := ne_of_lt hneg
      refine ⟨4 / -b.vx, div_nonneg (by norm_num) (by linarith), ?_, ?_⟩
      · rw [div_lt_one (by linarith)]
        linarith
      · rw [if_neg (by push_neg; nlinarith), if_pos hprod]
        field_simp
    · exfalso
      exact hne (by rw [hzero, zero_mul])
    · -- positive velocity: the clamp yields 4 = (4 / vx) * vx
      have hprod : 0 < b.vx * c := mul_pos hpos hcpos
      have habs : |b.vx * c| = b.vx * c := abs_of_pos hprod
      rw [habs] at h
      have hgt : 4 < b.vx := by nlinarith
      have hvxne : b.vx ≠ 0 := ne_of_gt hpos
      refine ⟨4 / b.vx, div_nonneg (by norm_num) (le_of_lt hpos), ?_, ?_⟩
      · rw [div_lt_one (by linarith)]
        linarith
      · rw [if_pos hprod]
        field_simp
  · rw [if_neg h]
    exact ⟨c, hc0, hc1, mul_comm _ _⟩

/-- The state decision of an enabled tick with both fighters present is
exactly the hysteresis function `aiNextState`. -/
theorem processAITick_state_eq (ai : AIInstance) (dx distance : ℚ)
    (f t : Fighter) (hf : ai.fighter = some f) (ht : ai.target = some t)
    (hen : ai.enabled = true) :
    (processAITick ai dx distance).state = aiNextState distance ai.state := by
  unfold processAITick
  rw [hf, ht]
  simp [hen]

/-- **C2.** For every AI evaluation of an enabled fighter whose own and
whose target's pelvis bodies exist: a pelvis distance above
`approachDistance` (150) makes the state `APPROACH`; a distance below
`idleDistance` (80) makes it `IDLE`; strictly between the two thresholds
the state is left unchanged; in particular a fighter in `APPROACH` stays
in `APPROACH` as long as the distance has not fallen below the lower
threshold. -/
theorem c2_hysteresis (ai : AIInstance) (dx distance : ℚ) (f t : Fighter)
    (hf : ai.fighter = some f) (ht : ai.target = some t)
    (hen : ai.enabled = true) :
    (AI_CONFIG.approachDistance < distance →
      (processAITick ai dx distance).state = AIState.APPROACH) ∧
    (distance < AI_CONFIG.idleDistance →
      (processAITick ai dx distance).state = AIState.IDLE) ∧
    (AI_CONFIG.idleDistance < distance → distance < AI_CONFIG.approachDistance →
      (processAITick ai dx distance).state = ai.state) ∧
    (ai.state = AIState.APPROACH → AI_CONFIG.idleDistance ≤ distance →
      (processAITick ai dx distance).state = AIState.APPROACH) := by
  have hst := processAITick_state_eq ai dx distance f t hf ht hen
  rw [hst]
  unfold aiNextState
  refine ⟨?_, ?_, ?_, ?_⟩
  · intro h1
    rw [if_pos h1]
  · intro h1
    rw [if_neg (by
      have : AI_CONFIG.idleDistance < AI_CONFIG.approachDistance := by
        norm_num [AI_CONFIG]
      push_neg
      linarith), if_pos h1]
  · intro h1 h2
    rw [if_neg (by push_neg; linarith), if_neg (by push_neg; linarith)]
  · intro h1 h2
    split_ifs with hgt hlt
    · rfl
    · linarith
    · exact h1

/-- Witness for C2: a concrete enabled controller at distance 360 (above
the upper threshold) transitions to `APPROACH`. -/
theorem c2_hysteresis_witness :
    (processAITick
      { fighter := some ⟨"fighter_a", "Fighter A", fighterARagdoll⟩
        target := some ⟨"fighter_b", "Fighter B", fighterBRagdoll⟩
        state := AIState.IDLE
        enabled := true
        lastDistance := 0 } 360 360).state = AIState.APPROACH :=
  (c2_hysteresis
    { fighter := some ⟨"fighter_a", "Fighter A", fighterARagdoll⟩
      target := some ⟨"fighter_b", "Fighter B", fighterBRagdoll⟩
      state := AIState.IDLE
      enabled := true
      lastDistance := 0 } 360 360
    ⟨"fighter_a", "Fighter A", fighterARagdoll⟩
    ⟨"fighter_b", "Fighter B", fighterBRagdoll⟩
    rfl rfl rfl).1 (by norm_num [AI_CONFIG])

/-- **C7.** For every AI evaluation in which the evaluated branch is the
`IDLE` one or the fighter's AI is disabled (both fighters present), the
applied damping multiplies only the horizontal (x) velocity of the pelvis
and the torso, each by a factor in `[0, 1)`, and leaves the vertical (y)
velocity of both bodies exactly unchanged. -/
theorem c7_idle_damping (ai : AIInstance) (dx distance : ℚ) (f t : Fighter)
    (hf : ai.fighter = some f) (ht : ai.target = some t)
    (hcase : ai.enabled = false ∨ aiNextState distance ai.state = AIState.IDLE) :
    ∃ g : Fighter, (processAITick ai dx distance).fighter = some g ∧
      g.ragdoll.bodies.pelvis.vy = f.ragdoll.bodies.pelvis.vy ∧
      g.ragdoll.bodies.torso.vy = f.ragdoll.bodies.torso.vy ∧
      (∃ fp, 0 ≤ fp ∧ fp < 1 ∧
        g.ragdoll.bodies.pelvis.vx = fp * f.ragdoll.bodies.pelvis.vx) ∧
      (∃ ft, 0 ≤ ft ∧ ft < 1 ∧
        g.ragdoll.bodies.torso.vx = ft * f.ragdoll.bodies.torso.vx) := by
  unfold processAITick
  rw [hf, ht]
  by_cases hen : ai.enabled = false
  · simp only [hen, if_true, if_pos]
    refine ⟨_, rfl, rfl, rfl, ?_, ?_⟩
    · exact ⟨AI_CONFIG.disabledDamping, by norm_num [AI_CONFIG], by norm_num [AI_CONFIG],
        mul_comm _ _⟩
    · exact ⟨AI_CONFIG.disabledDamping, by norm_num [AI_CONFIG], by norm_num [AI_CONFIG],
        mul_comm _ _⟩
  · have hidle : aiNextState distance ai.state = AIState.IDLE := by
      rcases hcase with hcase | hcase
      · exact absurd hcase hen
      · exact hcase
    simp only [hen, if_false, hidle]
    obtain ⟨fp, hfp0, hfp1, hfpvx⟩ :=
      clamp_damp_factor f.ragdoll.bodies.pelvis AI_CONFIG.idleDamping
        (by norm_num [AI_CONFIG]) (by norm_num [AI_CONFIG])
    obtain ⟨ft, hft0, hft1, hftvx⟩ :=
      clamp_damp_factor f.ragdoll.bodies.torso AI_CONFIG.idleDamping
        (by norm_num [AI_CONFIG]) (by norm_num [AI_CONFIG])
    refine ⟨_, rfl, ?_, ?_, ⟨fp, hfp0, hfp1, hfpvx⟩, ⟨ft, hft0, hft1, hftvx⟩⟩
    · rw [clampHorizontalVelocity_vy, dampHorizontalVelocity_vy]
    · rw [clampHorizontalVelocity_vy, dampHorizontalVelocity_vy]

/-- Witness for C7: a concrete disabled controller — both vertical
velocities are untouched, both horizontal velocities shrink. -/
theorem c7_idle_damping_witness :
    ∃ g : Fighter,
      (processAITick
        { fighter := some ⟨"fighter_a", "Fighter A", fighterARagdoll⟩
          target := some ⟨"fighter_b", "Fighter B", fighterBRagdoll⟩
          state := AIState.IDLE
          enabled := false
          lastDistance := 0 } 360 360).fighter = some g ∧
      g.ragdoll.bodies.pelvis.vy = fighterARagdoll.bodies.pelvis.vy ∧
      g.ragdoll.bodies.torso.vy = fighterARagdoll.bodies.torso.vy ∧
      (∃ fp, 0 ≤ fp ∧ fp < 1 ∧
        g.ragdoll.bodies.pelvis.vx = fp * fighterARagdoll.bodies.pelvis.vx) ∧
      (∃ ft, 0 ≤ ft ∧ ft < 1 ∧
        g.ragdoll.bodies.torso.vx = ft * fighterARagdoll.bodies.torso.vx) :=
  c7_idle_damping
    { fighter := some ⟨"fighter_a", "Fighter A", fighterARagdoll⟩
      target := some ⟨"fighter_b", "Fighter B", fighterBRagdoll⟩
      state := AIState.IDLE
      enabled := false
      lastDistance := 0 } 360 360
    ⟨"fighter_a", "Fighter A", fighterARagdoll⟩
    ⟨"fighter_b", "Fighter B", fighterBRagdoll⟩
    rfl rfl (Or.inl rfl)

end AIBrain

section RagdollClaims

open Ragdoll AIBrain

/-- **C8, counterexample.** The claim's segment/joint counts are wrong for
the code: the ragdoll built at the default configuration has 15 segments
and 14 joints, not 14 and 13 (the claim's own enumeration — head, torso,
pelvis, 4 arm segments, 2 hands, 4 leg segments, 2 feet; neck, spine,
2 shoulders, 2 elbows, 2 wrists, 2 hips, 2 knees, 2 ankles — also totals
15 and 14). -/
theorem c8_topology_counterexample :
    ¬((createRagdoll 270 250 RAGDOLL_CONFIG).segments.length = 14 ∧
      (createRagdoll 270 250 RAGDOLL_CONFIG).constraints.length = 13) := by
  intro h
  exact absurd h.1 (by decide)

/-- **C8, amended.** For every origin position and every configuration,
the ragdoll builder constructs exactly 15 named segments (head, torso,
pelvis, left/right upper and lower arms, left/right hands, left/right
upper and lower legs, left/right feet) connected by exactly 14 joints
(neck, spine, 2 shoulders, 2 elbows, 2 wrists, 2 hips, 2 knees,
2 ankles), and the AI tick — the in-fight operation that rewrites fighter
bodies — never adds or removes a segment or joint. -/
theorem c8_topology :
    (∀ (x y : ℚ) (cfg : RagdollConfig),
      (createRagdoll x y cfg).segments.map Segment.label =
        ["head", "torso", "pelvis",
         "leftUpperArm", "leftLowerArm", "leftHand",
         "rightUpperArm", "rightLowerArm", "rightHand",
         "leftUpperLeg", "leftLowerLeg", "leftFoot",
         "rightUpperLeg", "rightLowerLeg", "rightFoot"] ∧
      (createRagdoll x y cfg).segments.length = 15 ∧
      (createRagdoll x y cfg).constraints.map (fun j => (j.bodyA, j.bodyB)) =
        [("head", "torso"), ("torso", "pelvis"),
         ("torso", "leftUpperArm"), ("leftUpperArm", "leftLowerArm"),
         ("leftLowerArm", "leftHand"),
         ("torso", "rightUpperArm"), ("rightUpperArm", "rightLowerArm"),
         ("rightLowerArm", "rightHand"),
         ("pelvis", "leftUpperLeg"), ("leftUpperLeg", "leftLowerLeg"),
         ("leftLowerLeg", "leftFoot"),
         ("pelvis", "rightUpperLeg"), ("rightUpperLeg", "rightLowerLeg"),
         ("rightLowerLeg", "rightFoot")] ∧
      (createRagdoll x y cfg).constraints.length = 14) ∧
    (∀ (ai : AIInstance) (dx distance : ℚ),
      ((processAITick ai dx distance).fighter).map
        (fun g => (g.ragdoll.segments.map Segment.label,
          g.ragdoll.constraints.map (fun j => (j.bodyA, j.bodyB)))) =
      (ai.fighter).map
        (fun g => (g.ragdoll.segments.map Segment.label,
          g.ragdoll.constraints.map (fun j => (j.bodyA, j.bodyB))))) := by
  constructor
  · intro x y cfg
    exact ⟨rfl, rfl, rfl, rfl⟩
  · intro ai dx distance
    unfold processAITick
    cases hf : ai.fighter with
    | none =>
      cases ht : ai.target <;> simp [hf]
    | some g =>
      cases ht : ai.target with
      | none => simp [hf]
      | some u =>
        by_cases hen : ai.enabled = false
        · simp [hen, RagdollValue.segments, dampHorizontalVelocity_label]
        · cases hstate : aiNextState distance ai.state <;>
            simp [hen, hstate, RagdollValue.segments, dampHorizontalVelocity_label,
              clampHorizontalVelocity_label, applyForce_label]

/-- **C9, counterexample.** The claim speaks of "its 14 segments", but a
spawned fighter's ragdoll has 15 segments. -/
theorem c9_groups_counterexample : ¬(fighterARagdoll.segments.length = 14) := by
  decide

/-- **C9, amended.** For every ragdoll built with a given exclusive
collision group, every one of its 15 segments carries exactly that group
tag; the two spawned fighters receive the distinct exclusive groups −1
and −2, so under the engine's collision-filter rules no two segments of
the same fighter are ever eligible to collide with each other, while any
segment of fighter A may collide with any segment of fighter B. -/
theorem c9_collision_groups :
    (∀ (x y : ℚ) (cfg : RagdollConfig),
      (createRagdoll x y cfg).segments.map Segment.group =
        List.replicate 15 cfg.collisionGroup) ∧
    fighterARagdoll.segments.map Segment.group = List.replicate 15 (-1) ∧
    fighterBRagdoll.segments.map Segment.group = List.replicate 15 (-2) ∧
    (fighterARagdoll.segments.all fun sa =>
      fighterARagdoll.segments.all fun sb => !(canCollide sa.group sb.group)) = true ∧
    (fighterBRagdoll.segments.all fun sa =>
      fighterBRagdoll.segments.all fun sb => !(canCollide sa.group sb.group)) = true ∧
    (fighterARagdoll.segments.all fun sa =>
      fighterBRagdoll.segments.all fun sb => canCollide sa.group sb.group) = true := by
  exact ⟨fun x y cfg => rfl, rfl, rfl, by decide, by decide, by decide⟩

/-- **C5.** The claim requires invalid configurations (non-positive
mass/density, non-positive stiffness, lower ≥ upper AI thresholds) to be
rejected at construction time.  The code performs no validation at all:
`createRagdoll` happily builds the full 15-segment ragdoll from a
configuration with negative density and zero stiffness, storing the
invalid values verbatim, and `createAI` unconditionally constructs an
enabled controller (its distance thresholds are module constants that are
never checked).  This theorem evaluates the code at such a failing
input. -/
theorem c5_no_construction_validation :
    (createRagdoll 270 250 invalidRagdollConfig).segments.length = 15 ∧
    (createRagdoll 270 250 invalidRagdollConfig).bodies.head.density = -(1/1000) ∧
    ((createRagdoll 270 250 invalidRagdollConfig).constraints.map Joint.stiffness =
      List.replicate 14 0) ∧
    (∀ f t : Fighter,
      createAI f t =
        { fighter := some f, target := some t, state := AIState.IDLE,
          enabled := true, lastDistance := 0 }) :=
  ⟨rfl, rfl, rfl, fun f t => rfl⟩

end RagdollClaims

section ImpactClaims

/-- **C3.** For every collision pair, the impact score equals relative
contact speed × combined mass × the fixed scale constant 10 (for genuine,
nonzero body masses, which the `|| 1` default leaves untouched); in
particular, relative speed 10 and combined mass 1 + 1 = 2 yield exactly
200. -/
theorem c3_impact_score :
    (∀ relSpeed massA massB : ℚ, massA ≠ 0 → massB ≠ 0 →
      ImpactTracker.calculateImpact relSpeed massA massB =
        relSpeed * (massA + massB) * 10) ∧
    ImpactTracker.calculateImpact 10 1 1 = 200 := by
  constructor
  · intro rs mA mB hA hB
    unfold ImpactTracker.calculateImpact ImpactTracker.massOrOne
    rw [if_neg hA, if_neg hB]
  · unfold ImpactTracker.calculateImpact ImpactTracker.massOrOne
    norm_num

/-- Witness for C3: masses 2 and 3 at relative speed 10. -/
theorem c3_impact_score_witness :
    ImpactTracker.calculateImpact 10 2 3 = 10 * (2 + 3) * 10 :=
  c3_impact_score.1 10 2 3 (by norm_num) (by norm_num)

/-- **C4.** (Modelled from the spec, §4.5.)  Damage is the collision
impulse scaled by weapon and strength minus armor defense, floored at
zero; knockback is the impulse scaled by the knockback scale and reduced
by armor.  At the spec's worked numbers — impulse 500, weapon scale 1.0,
strength multiplier 1.0, armor defense 3, knockback scale 1.0, armor
knockback reduction 0.9 — damage is exactly 497 and knockback exactly
50. -/
theorem c4_damage_exactness :
    Damage.damage 500 1 1 3 = 497 ∧
    Damage.knockback 500 1 (9/10) = 50 ∧
    (∀ ci wds sm ad : ℚ, 0 ≤ Damage.damage ci wds sm ad) := by
  refine ⟨?_, ?_, fun ci wds sm ad => le_max_right _ _⟩
  · unfold Damage.damage Damage.impactScoreForDamage
    rw [max_eq_left (by norm_num)]
    norm_num
  · unfold Damage.knockback
    norm_num

end ImpactClaims
